import Mathlib

/-!
Verification of the Kepler power-monitor attribution engine.

Shallow embedding of the monitor's attribution arithmetic
(src/internal/monitor/node.go and the process-attribution file,
package monitor).  Conventions of the embedding:

* `device.Energy` is a Go `uint64` holding microjoules; it is modelled as
  `Nat`.  Where the Go code can wrap around (the counter-wrap branch of
  `calculateEnergyDelta`) the wrap at 2^64 is modelled explicitly; the
  cumulative totals are modelled with plain `Nat` addition.
* `device.Power` is a Go `float64` holding microwatts; it is modelled as
  an exact rational number.  Float64 rounding is not modelled: every
  arithmetic identity proved about powers holds of the real-number
  semantics of the source expressions.
* Go map iteration is modelled by lists of key/value pairs and Go map
  lookup by `List.lookup`; a fallible `zone.Energy()` read is an
  `Option Energy` (`none` models a read error).
* The Go conversion `Energy(x)` of a non-negative `float64` truncates
  toward zero; it is modelled as the integer floor followed by
  `Int.toNat`.
-/

namespace Kepler

/-- Modulus of Go `uint64` arithmetic. -/
def U64 : ℕ := 2 ^ 64

/-- Go `uint64` subtraction `a - b`, which wraps modulo 2^64
(for `a b < U64`). -/
def usub (a b : ℕ) : ℕ := (a + (U64 - b % U64)) % U64

/-- Go `uint64` addition `a + b`, which wraps modulo 2^64. -/
def uadd (a b : ℕ) : ℕ := (a + b) % U64

/-- Go conversion `Energy(x)` from a non-negative `float64` to `uint64`:
truncation toward zero. -/
def toEnergy (q : ℚ) : ℕ := ⌊q⌋.toNat

/-- calculateEnergyDelta (node.go:93-104): joules difference handling
counter wraparound.  `current >= previous` gives the plain difference;
otherwise, with a positive wrap value, `(maxJoules - previous) + current`
in `uint64` arithmetic; with no wrap value the delta is zero. -/
def calculateEnergyDelta (current previous maxJoules : ℕ) : ℕ :=
  if previous ≤ current then
    current - previous
  else if 0 < maxJoules then
    uadd (usub maxJoules previous) current
  else
    0

/-- NodeUsage (monitor types): per-zone cumulative counter, active/idle
energy totals, the interval activeEnergy used for attribution, and the
three power fields for the last interval. -/
structure NodeUsage where
  EnergyTotal : ℕ := 0
  activeEnergy : ℕ := 0
  ActiveEnergyTotal : ℕ := 0
  IdleEnergyTotal : ℕ := 0
  Power : ℚ := 0
  ActivePower : ℚ := 0
  IdlePower : ℚ := 0
  deriving DecidableEq, Repr

/-- Usage (monitor types): the published pair of a workload for one zone. -/
structure Usage where
  Power : ℚ := 0
  EnergyTotal : ℕ := 0
  deriving DecidableEq, Repr

section EnergyDelta

/-- C3: for every zone reading the published delta is `E_now - E_prev`
when the counter did not go backwards; on wrap with an available wrap
value `Emax` (with `E_prev ≤ Emax`, as holds for a monotone counter, and
no `uint64` overflow of the result) it is `(Emax - E_prev) + E_now`; and
with no wrap value available it is zero.  The result type is `Nat`, so
the published delta is never negative. -/
theorem calculateEnergyDelta_spec (current previous maxJoules : ℕ)
    (hc : current < U64) (hp : previous < U64) (hm : maxJoules < U64) :
    (previous ≤ current →
      calculateEnergyDelta current previous maxJoules = current - previous) ∧
    (current < previous → 0 < maxJoules → previous ≤ maxJoules →
      (maxJoules - previous) + current < U64 →
      calculateEnergyDelta current previous maxJoules
        = (maxJoules - previous) + current) ∧
    (current < previous → maxJoules = 0 →
      calculateEnergyDelta current previous maxJoules = 0) := by
  refine ⟨fun h => ?_, fun h hmax hpm hlt => ?_, fun h hmax => ?_⟩
  · simp [calculateEnergyDelta, h]
  · have hnot : ¬ previous ≤ current := not_le.mpr h
    have hsub : usub maxJoules previous = maxJoules - previous := by
      unfold usub
      rw [Nat.mod_eq_of_lt hp]
      have h1 : maxJoules + (U64 - previous) = U64 + (maxJoules - previous) := by
        have hu : previous ≤ U64 := le_of_lt hp
        omega
      have h2 : maxJoules - previous < U64 := by omega
      rw [h1, Nat.add_mod_left, Nat.mod_eq_of_lt h2]
    have hadd : uadd (maxJoules - previous) current = (maxJoules - previous) + current := by
      unfold uadd
      exact Nat.mod_eq_of_lt hlt
    simp [calculateEnergyDelta, hnot, hmax, hsub, hadd]
  · have hnot : ¬ previous ≤ current := not_le.mpr h
    simp [calculateEnergyDelta, hnot, hmax]

/-- Witness for C3 at the spec scenario S5: `Emax = 2^32 - 1`,
`E_prev = 2^32 - 10`, `E_now = 40` gives a published delta of 49. -/
theorem calculateEnergyDelta_spec_witness :
    calculateEnergyDelta 40 (2 ^ 32 - 10) (2 ^ 32 - 1)
      = (2 ^ 32 - 1 - (2 ^ 32 - 10)) + 40 ∧
    calculateEnergyDelta 40 (2 ^ 32 - 10) (2 ^ 32 - 1) = 49 := by
  have h := (calculateEnergyDelta_spec 40 (2 ^ 32 - 10) (2 ^ 32 - 1)
    (by norm_num [U64]) (by norm_num [U64]) (by norm_num [U64])).2.1
    (by norm_num) (by norm_num) (by norm_num) (by norm_num [U64])
  exact ⟨h, by rw [h]; norm_num⟩

end EnergyDelta

/-- One enumerated CPU energy zone (`pm.cpu.Zones()` element) together
with the outcome of this tick's `zone.Energy()` read.  `energy = none`
models a failed read; `maxEnergy` is `zone.MaxEnergy()`.  Zone identity
(name, index) is abstracted to a natural number. -/
structure ZoneRead where
  zone : ℕ
  energy : Option ℕ
  maxEnergy : ℕ
  deriving DecidableEq, Repr

/-- Body of the per-zone loop of calculateNodePower (node.go:47-81),
run after a successful `zone.Energy()` read returned `absEnergy`.  With
a previous reading for the zone it computes the wrap-aware delta, splits
it into active (truncated `delta * usageRatio`) and idle parts,
accumulates the totals, and derives the three power fields from
`delta / timeDiff`; without a previous reading every derived field keeps
its Go zero value and only `EnergyTotal` is set. -/
def nodeZoneUsage (prevZones : List (ℕ × NodeUsage)) (usageRatio timeDiff : ℚ)
    (zr : ZoneRead) (absEnergy : ℕ) : NodeUsage :=
  match prevZones.lookup zr.zone with
  | some prevZone =>
      let deltaEnergy := calculateEnergyDelta absEnergy prevZone.EnergyTotal zr.maxEnergy
      let activeEnergy := toEnergy ((deltaEnergy : ℚ) * usageRatio)
      let idleEnergy := deltaEnergy - activeEnergy
      let power : ℚ := (deltaEnergy : ℚ) / timeDiff
      let activePower := power * usageRatio
      { EnergyTotal := absEnergy
        activeEnergy := activeEnergy
        ActiveEnergyTotal := prevZone.ActiveEnergyTotal + activeEnergy
        IdleEnergyTotal := prevZone.IdleEnergyTotal + idleEnergy
        Power := power
        ActivePower := activePower
        IdlePower := power - activePower }
  | none => { EnergyTotal := absEnergy }

/-- calculateNodePower (node.go:11-90), CPU-zone part: the new node zone
map.  A zone whose read failed is skipped (`continue`) and therefore
absent from the new map; `timeDiff` is the wall-clock difference in
seconds between the new and the previous snapshot timestamps. -/
def calculateNodePower (prevZones : List (ℕ × NodeUsage)) (usageRatio timeDiff : ℚ)
    (zones : List ZoneRead) : List (ℕ × NodeUsage) :=
  zones.filterMap fun zr =>
    zr.energy.map fun e => (zr.zone, nodeZoneUsage prevZones usageRatio timeDiff zr e)

/-- The zones whose reads failed this tick; each is logged with its
identity by calculateNodePower (node.go:43) before being skipped. -/
def failedZones (zones : List ZoneRead) : List ℕ :=
  (zones.filter fun zr => zr.energy.isNone).map (·.zone)

/-- firstNodeRead (node.go:107-142), per-zone body: on the first tick
the absolute reading is split by the current usage ratio into the
active/idle totals; no power can be computed (`Power`, `ActivePower`
and `IdlePower` keep their Go zero values). -/
def firstNodeZoneUsage (usageRatio : ℚ) (energy : ℕ) : NodeUsage :=
  let activeEnergy := toEnergy ((energy : ℚ) * usageRatio)
  { EnergyTotal := energy
    ActiveEnergyTotal := activeEnergy
    IdleEnergyTotal := energy - activeEnergy
    activeEnergy := activeEnergy }

/-- firstNodeRead (node.go:107-142): the first-tick node zone map.  A
zone whose read failed is skipped, exactly as in calculateNodePower. -/
def firstNodeRead (usageRatio : ℚ) (zones : List ZoneRead) : List (ℕ × NodeUsage) :=
  zones.filterMap fun zr =>
    zr.energy.map fun e => (zr.zone, firstNodeZoneUsage usageRatio e)

/-- One enumerated GPU device (`pm.gpu.Zones()` element) with the
outcome of this tick's `zone.Energy()` read and its `MaxEnergy()`. -/
structure GPUZoneRead where
  deviceID : ℕ
  energy : Option ℕ
  maxEnergy : ℕ
  deriving DecidableEq, Repr

/-- Go conversion `time.Duration(timeDiff)` applied to a non-negative
`float64` of seconds (node.go:86): the `float64` is truncated to an
integer and reinterpreted as a Duration, i.e. as NANOSECONDS. -/
def goDuration (seconds : ℚ) : ℕ := ⌊seconds⌋.toNat

/-- Go `time.Duration.Seconds()`: the duration's nanosecond count
divided by 1e9. -/
def durationSeconds (durNs : ℕ) : ℚ := (durNs : ℚ) / 1000000000

/-- Body of the per-GPU loop of collectNodeGPUData (node.go:157-209)
after a successful energy read returned `absEnergy`.  With a previous
reading, the whole wrap-aware delta is active energy (GPUs have no idle
split and the idle total is carried over unchanged); the power is the
instantaneous `DevicePower` reading when present, otherwise the delta
divided by `timeDiff.Seconds()` where `timeDiff` is the Duration value
passed by calculateNodePower (node.go:86), and idle power is zero.
Without a previous reading only `EnergyTotal` is set. -/
def collectGPUZoneUsage (prevGPUZones : List (ℕ × NodeUsage))
    (devicePower : List (ℕ × ℚ)) (durNs : ℕ) (gz : GPUZoneRead)
    (absEnergy : ℕ) : NodeUsage :=
  match prevGPUZones.lookup gz.deviceID with
  | some prevUsage =>
      let deltaEnergy := calculateEnergyDelta absEnergy prevUsage.EnergyTotal gz.maxEnergy
      let activeEnergy := deltaEnergy
      let powers : ℚ × ℚ × ℚ :=
        match devicePower.lookup gz.deviceID with
        | some instantPower => (instantPower, instantPower, 0)
        | none =>
            let timeInSeconds := durationSeconds durNs
            if 0 < timeInSeconds then
              let p := (deltaEnergy : ℚ) / timeInSeconds
              (p, p, 0)
            else (0, 0, 0)
      { EnergyTotal := absEnergy
        activeEnergy := activeEnergy
        ActiveEnergyTotal := prevUsage.ActiveEnergyTotal + activeEnergy
        IdleEnergyTotal := prevUsage.IdleEnergyTotal
        Power := powers.1
        ActivePower := powers.2.1
        IdlePower := powers.2.2 }
  | none => { EnergyTotal := absEnergy }

/-- collectNodeGPUData (node.go:145-210): the new node GPU map for a
steady-state tick.  A GPU whose energy read failed is skipped
(`continue`) and absent from the new map. -/
def collectNodeGPUData (prevGPUZones : List (ℕ × NodeUsage))
    (devicePower : List (ℕ × ℚ)) (durNs : ℕ)
    (gpuZones : List GPUZoneRead) : List (ℕ × NodeUsage) :=
  gpuZones.filterMap fun gz =>
    gz.energy.map fun e =>
      (gz.deviceID, collectGPUZoneUsage prevGPUZones devicePower durNs gz e)

/-- initNodeGPUData (node.go:213-233): the first-tick node GPU map.
Unlike the CPU-zone loops, a GPU whose read failed is NOT skipped:
`absEnergy` is set to 0 and the entry is still written. -/
def initNodeGPUData (gpuZones : List GPUZoneRead) : List (ℕ × NodeUsage) :=
  gpuZones.map fun gz => (gz.deviceID, { EnergyTotal := gz.energy.getD 0 })

/-- The fields of a running `resource.Process` used by the attribution
code: the PID and the CPU-time delta of the interval (a `float64` of
seconds). -/
structure ProcInfo where
  pid : ℕ
  CPUTimeDelta : ℚ
  deriving DecidableEq, Repr

/-- A published monitor `Process` record, restricted to the fields the
claims are about: identity, per-CPU-zone usage and per-GPU usage.  Map
keys are the abstract zone identities and GPU device ids. -/
structure Process where
  pid : ℕ
  Zones : List (ℕ × Usage)
  GPUZones : List (ℕ × Usage)
  deriving DecidableEq, Repr

/-- newProcess (process attribution file, lines 54-83): a fresh record
whose CPU-zone map has a zero `Usage` for every node zone and whose GPU
map is empty. -/
def newProcess (proc : ProcInfo) (zones : List (ℕ × NodeUsage)) : Process :=
  { pid := proc.pid
    Zones := zones.map fun z => (z.1, ⟨0, 0⟩)
    GPUZones := [] }

/-- The nested lookup of a process's previous cumulative energy for one
zone (calculateProcessPower lines 139-145): zero when the process is new
this interval or had no entry for the zone. -/
def prevZoneEnergy (prevProcesses : List (ℕ × Process)) (pid zone : ℕ) : ℕ :=
  match prevProcesses.lookup pid with
  | some prevProc =>
      match prevProc.Zones.lookup zone with
      | some prevUsage => prevUsage.EnergyTotal
      | none => 0
  | none => 0

/-- Per-zone body of the running-process loop of calculateProcessPower
(lines 130-152).  When the zone's `ActivePower`, its interval
`activeEnergy`, or the node CPU-time delta is zero the `continue` leaves
the zero `Usage` written by newProcess; otherwise the process receives
its CPU-time share of the zone's active power and active energy, the
energy accumulated onto its previous total. -/
def processZoneUsage (nodeCPUTimeDelta : ℚ) (prevProcesses : List (ℕ × Process))
    (proc : ProcInfo) (zone : ℕ) (nu : NodeUsage) : Usage :=
  if nu.ActivePower = 0 ∨ nu.activeEnergy = 0 ∨ nodeCPUTimeDelta = 0 then
    ⟨0, 0⟩
  else
    let cpuTimeRatio := proc.CPUTimeDelta / nodeCPUTimeDelta
    let activeEnergy := toEnergy (cpuTimeRatio * (nu.activeEnergy : ℚ))
    ⟨cpuTimeRatio * nu.ActivePower, activeEnergy + prevZoneEnergy prevProcesses proc.pid zone⟩

/-- One running process's record as built by calculateProcessPower
(lines 125-155); the GPU map is filled later by
calculateProcessGPUPower. -/
def calculateProcess (zones : List (ℕ × NodeUsage)) (nodeCPUTimeDelta : ℚ)
    (prevProcesses : List (ℕ × Process)) (proc : ProcInfo) : Process :=
  { pid := proc.pid
    Zones := zones.map fun z => (z.1, processZoneUsage nodeCPUTimeDelta prevProcesses proc z.1 z.2)
    GPUZones := [] }

/-- calculateProcessPower (lines 86-173), running-process part: the new
`Processes` map keyed by PID. -/
def calculateProcessPower (zones : List (ℕ × NodeUsage)) (nodeCPUTimeDelta : ℚ)
    (prevProcesses : List (ℕ × Process)) (running : List ProcInfo) :
    List (ℕ × Process) :=
  running.map fun proc => (proc.pid, calculateProcess zones nodeCPUTimeDelta prevProcesses proc)

/-- Per-zone body of firstProcessRead (lines 21-40): identical guard to
the steady-state loop, no previous total to accumulate, and power stays
zero because no rate can be computed on the first read. -/
def firstProcessZoneUsage (nodeCPUTimeDelta : ℚ) (proc : ProcInfo) (nu : NodeUsage) : Usage :=
  if nu.ActivePower = 0 ∨ nu.activeEnergy = 0 ∨ nodeCPUTimeDelta = 0 then
    ⟨0, 0⟩
  else
    ⟨0, toEnergy ((proc.CPUTimeDelta / nodeCPUTimeDelta) * (nu.activeEnergy : ℚ))⟩

/-- firstProcessRead (lines 14-52), CPU part: the first-tick `Processes`
map. -/
def firstProcessRead (zones : List (ℕ × NodeUsage)) (nodeCPUTimeDelta : ℚ)
    (running : List ProcInfo) : List (ℕ × Process) :=
  running.map fun proc =>
    (proc.pid,
     { pid := proc.pid
       Zones := zones.map fun z => (z.1, firstProcessZoneUsage nodeCPUTimeDelta proc z.2)
       GPUZones := [] })

/-- The nested lookup of a process's previous cumulative GPU energy
(calculateProcessGPUPower lines 322-330): zero when the previous
snapshot has no record for the PID or no entry for the GPU. -/
def prevGPUEnergy (prevProcesses : List (ℕ × Process)) (gpuID pid : ℕ) : ℕ :=
  match prevProcesses.lookup pid with
  | some prevProc =>
      match prevProc.GPUZones.lookup gpuID with
      | some prevUsage => prevUsage.EnergyTotal
      | none => 0
  | none => 0

/-- Per-reporting-process body of calculateProcessGPUPower (lines
310-336): with positive total SM utilization the process receives the
ratio share of the node GPU's `ActivePower` and of its interval
`activeEnergy` (truncated to integer microjoules and accumulated onto
the previous total); with zero total it receives zero power and only its
previous total. -/
def processGPUUsage (nodeGPUUsage : NodeUsage) (prevEnergy : ℕ)
    (totalSMUtil smUtil : ℚ) : Usage :=
  if 0 < totalSMUtil then
    let utilizationRatio := smUtil / totalSMUtil
    ⟨utilizationRatio * nodeGPUUsage.ActivePower,
     toEnergy (utilizationRatio * (nodeGPUUsage.activeEnergy : ℚ)) + prevEnergy⟩
  else
    ⟨0, prevEnergy⟩

/-- calculateProcessGPUPower (lines 254-345) for one GPU device:
`utils` is the list of processes that reported non-error SM utilization
on this GPU (`ProcessUtilization` succeeded), in snapshot iteration
order; the published GPU usage of every reporting process. -/
def calculateProcessGPUPower (nodeGPUUsage : NodeUsage)
    (prevProcesses : List (ℕ × Process)) (gpuID : ℕ)
    (utils : List (ℕ × ℚ)) : List (ℕ × Usage) :=
  let totalSMUtil := (utils.map (·.2)).sum
  utils.map fun pu =>
    (pu.1, processGPUUsage nodeGPUUsage (prevGPUEnergy prevProcesses gpuID pu.1) totalSMUtil pu.2)

/-- initProcessGPUPower (lines 178-248) for one GPU device: on the first
tick each reporting process receives its SM-utilization share of the
node GPU's `ActiveEnergyTotal` as initial energy and zero power. -/
def initProcessGPUPower (nodeGPUUsage : NodeUsage) (utils : List (ℕ × ℚ)) :
    List (ℕ × Usage) :=
  let totalSMUtil := (utils.map (·.2)).sum
  utils.map fun pu =>
    (pu.1,
     if 0 < totalSMUtil then
       (⟨0, toEnergy ((pu.2 / totalSMUtil) * (nodeGPUUsage.ActiveEnergyTotal : ℚ))⟩ : Usage)
     else ⟨0, 0⟩)

/-- Modelled from the spec: the priority key used by the terminated
tracker is the workload's `EnergyTotal` (spec 4.2); the tracker's
implementation is not under src/.  A process's total is taken as the sum
of its cumulative energies over all CPU zones and GPUs. -/
def Process.energyTotal (p : Process) : ℕ :=
  (p.Zones.map (·.2.EnergyTotal)).sum + (p.GPUZones.map (·.2.EnergyTotal)).sum

/-- Clone (spec 4.2 and calculateProcessPower line 105): a deep copy of
the record; on the pure model this is the identity. -/
def Process.Clone (p : Process) : Process := p

/-- Modelled from the spec: the terminated-workload tracker (spec 4.2);
its implementation is not under src/.  It is parameterised by
`maxTerminated` and `minEnergyThreshold` and holds the retained items. -/
structure TermTracker where
  maxTerminated : ℤ
  minEnergyThreshold : ℕ
  items : List Process
  deriving DecidableEq, Repr

/-- Helper for eviction: the minimum `energyTotal` of `l`, starting
from `acc`. -/
def minEnergyAux : List Process → ℕ → ℕ
  | [], acc => acc
  | p :: ps, acc => minEnergyAux ps (min acc p.energyTotal)

/-- Helper for eviction: remove the first element whose `energyTotal`
is `e`. -/
def removeFirstWithEnergy (e : ℕ) : List Process → List Process
  | [] => []
  | p :: ps => if p.energyTotal = e then ps else p :: removeFirstWithEnergy e ps

/-- Helper for eviction: drop one element of minimal `energyTotal`. -/
def removeMinByEnergy (l : List Process) : List Process :=
  match l with
  | [] => []
  | p :: ps => removeFirstWithEnergy (minEnergyAux ps p.energyTotal) (p :: ps)

/-- Modelled from the spec: TermTracker.Add (spec 4.2).  A workload
below `minEnergyThreshold` is never tracked; `maxTerminated = 0`
disables tracking; `maxTerminated < 0` retains unboundedly; otherwise
the top-N workloads by `energyTotal` are retained, the lowest being
evicted on insert when full. -/
def TermTracker.Add (t : TermTracker) (p : Process) : TermTracker :=
  if p.energyTotal < t.minEnergyThreshold then t
  else if t.maxTerminated = 0 then t
  else if t.maxTerminated < 0 then { t with items := t.items ++ [p] }
  else if t.items.length < t.maxTerminated.toNat then { t with items := t.items ++ [p] }
  else { t with items := removeMinByEnergy (t.items ++ [p]) }

/-- Modelled from the spec: TermTracker.Clear (spec 4.2, 4.3): drops all
retained items, keeping the configuration. -/
def TermTracker.Clear (t : TermTracker) : TermTracker := { t with items := [] }

/-- Terminated-process phase of calculateProcessPower (lines 86-106):
if the previous snapshot has been exported the tracker is cleared first;
then every PID the informer reports as terminated this tick that is
present in the previous snapshot's Processes map is added to the tracker
as a clone of its previous record.  The published
`TerminatedProcesses` vector is the tracker's item list (line 166). -/
def processTerminated (exported : Bool) (tracker : TermTracker)
    (terminated : List ℕ) (prevProcesses : List (ℕ × Process)) : TermTracker :=
  let t0 := if exported then tracker.Clear else tracker
  terminated.foldl
    (fun t pid =>
      match prevProcesses.lookup pid with
      | some prevProcess => t.Add prevProcess.Clone
      | none => t)
    t0

section LookupLemmas

variable {α : Type} {β : Type}

/-- Lookup in a keyed map built by `List.map` from pairs: the first
entry for the key determines the result. -/
theorem lookup_map_pairs (f : ℕ → α → β) (pre post : List (ℕ × α)) (k : ℕ) (v : α)
    (hpre : ∀ y ∈ pre, y.1 ≠ k) :
    (((pre ++ (k, v) :: post).map fun z => (z.1, f z.1 z.2)).lookup k)
      = some (f k v) := by
  induction pre with
  | nil => simp [List.lookup]
  | cons y ys ih =>
      have hy : y.1 ≠ k := hpre y (List.mem_cons_self y ys)
      have hk : (k == y.1) = false := beq_false_of_ne (Ne.symm hy)
      simp only [List.cons_append, List.map_cons, List.lookup, hk]
      exact ih fun z hz => hpre z (List.mem_cons_of_mem y hz)

/-- Lookup misses a keyed map built by `List.map` when no entry has the
key. -/
theorem lookup_map_pairs_none (f : ℕ → α → β) (l : List (ℕ × α)) (k : ℕ)
    (h : ∀ y ∈ l, y.1 ≠ k) :
    ((l.map fun z => (z.1, f z.1 z.2)).lookup k) = none := by
  induction l with
  | nil => simp [List.lookup]
  | cons y ys ih =>
      have hy : y.1 ≠ k := h y (List.mem_cons_self y ys)
      have hk : (k == y.1) = false := beq_false_of_ne (Ne.symm hy)
      simp only [List.map_cons, List.lookup, hk]
      exact ih fun z hz => h z (List.mem_cons_of_mem y hz)

end LookupLemmas

section ReadMapLemmas

variable {σ : Type}

/-- Shared shape of the three node read loops: each element of `l` is a
device, `key` its identity, `rd` the outcome of its energy read and
`use` the usage computed from a successful read; failed reads are
skipped. -/
def readMap (key : σ → ℕ) (rd : σ → Option ℕ) (use : σ → ℕ → NodeUsage)
    (l : List σ) : List (ℕ × NodeUsage) :=
  l.filterMap fun x => (rd x).map fun e => (key x, use x e)

theorem calculateNodePower_eq_readMap (prevZones : List (ℕ × NodeUsage))
    (usageRatio timeDiff : ℚ) (zones : List ZoneRead) :
    calculateNodePower prevZones usageRatio timeDiff zones
      = readMap (·.zone) (·.energy) (nodeZoneUsage prevZones usageRatio timeDiff) zones := rfl

theorem firstNodeRead_eq_readMap (usageRatio : ℚ) (zones : List ZoneRead) :
    firstNodeRead usageRatio zones
      = readMap (·.zone) (·.energy) (fun _ e => firstNodeZoneUsage usageRatio e) zones := rfl

theorem collectNodeGPUData_eq_readMap (prevGPUZones : List (ℕ × NodeUsage))
    (devicePower : List (ℕ × ℚ)) (durNs : ℕ) (gpuZones : List GPUZoneRead) :
    collectNodeGPUData prevGPUZones devicePower durNs gpuZones
      = readMap (·.deviceID) (·.energy)
          (collectGPUZoneUsage prevGPUZones devicePower durNs) gpuZones := rfl

/-- A failed read contributes nothing: the map over the list with the
failing element equals the map over the list without it. -/
theorem readMap_skip (key : σ → ℕ) (rd : σ → Option ℕ) (use : σ → ℕ → NodeUsage)
    (pre post : List σ) (x : σ) (hx : rd x = none) :
    readMap key rd use (pre ++ x :: post) = readMap key rd use (pre ++ post) := by
  simp [readMap, List.filterMap_append, List.filterMap_cons, hx]

/-- A key none of whose reads succeeded is absent from the produced
map. -/
theorem readMap_not_mem_keys (key : σ → ℕ) (rd : σ → Option ℕ)
    (use : σ → ℕ → NodeUsage) (l : List σ) (k : ℕ)
    (h : ∀ x ∈ l, key x = k → rd x = none) :
    k ∉ (readMap key rd use l).map Prod.fst := by
  intro hk
  rcases List.mem_map.mp hk with ⟨p, hp, hpk⟩
  rcases List.mem_filterMap.mp hp with ⟨x, hxl, hxp⟩
  cases hrd : rd x with
  | none => rw [hrd] at hxp; exact Option.noConfusion hxp
  | some e =>
      rw [hrd] at hxp
      have hxeq : (key x, use x e) = p := Option.some.injEq _ _ ▸ hxp
      have hkey : key x = k := by rw [← hpk, ← hxeq]
      exact Option.noConfusion ((h x hxl hkey).symm.trans hrd)

/-- Lookup of a key whose read absent from the produced map is `none`. -/
theorem readMap_lookup_none (key : σ → ℕ) (rd : σ → Option ℕ)
    (use : σ → ℕ → NodeUsage) (l : List σ) (k : ℕ)
    (h : ∀ x ∈ l, key x = k → rd x = none) :
    (readMap key rd use l).lookup k = none := by
  induction l with
  | nil => simp [readMap, List.lookup]
  | cons x xs ih =>
      have htail : (readMap key rd use xs).lookup k = none :=
        ih fun y hy => h y (List.mem_cons_of_mem x hy)
      cases hrd : rd x with
      | none => simpa [readMap, List.filterMap_cons, hrd] using htail
      | some e =>
          have hkey : key x ≠ k := by
            intro hkx
            exact Option.noConfusion ((h x (List.mem_cons_self x xs) hkx).symm.trans hrd)
          have hk : (k == key x) = false := beq_false_of_ne (Ne.symm hkey)
          simpa [readMap, List.filterMap_cons, hrd, List.lookup, hk] using htail

/-- Lookup of the first successfully read occurrence of a key. -/
theorem readMap_lookup_first (key : σ → ℕ) (rd : σ → Option ℕ)
    (use : σ → ℕ → NodeUsage) (pre post : List σ) (x : σ) (e : ℕ)
    (hx : rd x = some e) (hpre : ∀ y ∈ pre, key y ≠ key x) :
    (readMap key rd use (pre ++ x :: post)).lookup (key x) = some (use x e) := by
  induction pre with
  | nil => simp [readMap, List.filterMap_cons, hx, List.lookup]
  | cons y ys ih =>
      have hy : key y ≠ key x := hpre y (List.mem_cons_self y ys)
      have htail := ih fun z hz => hpre z (List.mem_cons_of_mem y hz)
      cases hrd : rd y with
      | none => simpa [readMap, List.filterMap_cons, hrd] using htail
      | some ey =>
          have hk : (key x == key y) = false := beq_false_of_ne (Ne.symm hy)
          simpa [readMap, List.filterMap_cons, hrd, List.lookup, hk] using htail

end ReadMapLemmas

section NodeTheorems

/-- Truncation of a ratio share never exceeds the whole: the Go
conversion `Energy(float64(delta) * ratio)` with a ratio in the unit
interval is at most `delta`. -/
theorem toEnergy_mul_ratio_le (delta : ℕ) (r : ℚ) (h0 : 0 ≤ r) (h1 : r ≤ 1) :
    toEnergy ((delta : ℚ) * r) ≤ delta := by
  unfold toEnergy
  have hx : (delta : ℚ) * r ≤ (delta : ℚ) :=
    mul_le_of_le_one_right (by positivity) h1
  have h3 : ⌊(delta : ℚ) * r⌋ ≤ (delta : ℤ) := by
    have hf := Int.floor_le_floor hx
    rwa [Int.floor_natCast] at hf
  exact_mod_cast Int.toNat_le.mpr h3

/-- With a previous reading, nodeZoneUsage is the record written at
node.go:71-81. -/
theorem nodeZoneUsage_of_prev (prevZones : List (ℕ × NodeUsage))
    (usageRatio timeDiff : ℚ) (zr : ZoneRead) (absEnergy : ℕ) (prevZone : NodeUsage)
    (hprev : prevZones.lookup zr.zone = some prevZone) :
    nodeZoneUsage prevZones usageRatio timeDiff zr absEnergy
      = { EnergyTotal := absEnergy
          activeEnergy := toEnergy
            ((calculateEnergyDelta absEnergy prevZone.EnergyTotal zr.maxEnergy : ℚ) * usageRatio)
          ActiveEnergyTotal := prevZone.ActiveEnergyTotal + toEnergy
            ((calculateEnergyDelta absEnergy prevZone.EnergyTotal zr.maxEnergy : ℚ) * usageRatio)
          IdleEnergyTotal := prevZone.IdleEnergyTotal +
            (calculateEnergyDelta absEnergy prevZone.EnergyTotal zr.maxEnergy - toEnergy
              ((calculateEnergyDelta absEnergy prevZone.EnergyTotal zr.maxEnergy : ℚ) * usageRatio))
          Power := (calculateEnergyDelta absEnergy prevZone.EnergyTotal zr.maxEnergy : ℚ) / timeDiff
          ActivePower := (calculateEnergyDelta absEnergy prevZone.EnergyTotal zr.maxEnergy : ℚ)
            / timeDiff * usageRatio
          IdlePower := (calculateEnergyDelta absEnergy prevZone.EnergyTotal zr.maxEnergy : ℚ)
            / timeDiff
            - (calculateEnergyDelta absEnergy prevZone.EnergyTotal zr.maxEnergy : ℚ)
              / timeDiff * usageRatio } := by
  simp [nodeZoneUsage, hprev]

/-- C4: on a steady-state tick, for a zone with a previous reading the
published entry splits the wrap-aware interval delta by the usage ratio
into active energy (truncated to integer microjoules) and the idle
remainder, accumulates both totals onto the previous ones, publishes
power `delta / timeDiff` (`timeDiff` being the wall-clock seconds
between the two snapshot timestamps, node.go:35), splits it by the same
ratio into active power with idle power the remainder, and records the
absolute counter in `EnergyTotal`. -/
theorem calculateNodePower_zone_spec (prevZones : List (ℕ × NodeUsage))
    (usageRatio timeDiff : ℚ) (pre post : List ZoneRead) (zr : ZoneRead)
    (absEnergy : ℕ) (prevZone : NodeUsage)
    (hread : zr.energy = some absEnergy)
    (hfirst : ∀ y ∈ pre, y.zone ≠ zr.zone)
    (hprev : prevZones.lookup zr.zone = some prevZone)
    (h0 : 0 ≤ usageRatio) (h1 : usageRatio ≤ 1) (hdt : 0 < timeDiff) :
    ∃ u : NodeUsage,
      (calculateNodePower prevZones usageRatio timeDiff (pre ++ zr :: post)).lookup zr.zone
        = some u ∧
      u.EnergyTotal = absEnergy ∧
      u.activeEnergy =
        toEnergy ((calculateEnergyDelta absEnergy prevZone.EnergyTotal zr.maxEnergy : ℚ)
          * usageRatio) ∧
      u.activeEnergy ≤ calculateEnergyDelta absEnergy prevZone.EnergyTotal zr.maxEnergy ∧
      u.activeEnergy + (calculateEnergyDelta absEnergy prevZone.EnergyTotal zr.maxEnergy
          - u.activeEnergy)
        = calculateEnergyDelta absEnergy prevZone.EnergyTotal zr.maxEnergy ∧
      u.ActiveEnergyTotal = prevZone.ActiveEnergyTotal + u.activeEnergy ∧
      u.IdleEnergyTotal = prevZone.IdleEnergyTotal +
        (calculateEnergyDelta absEnergy prevZone.EnergyTotal zr.maxEnergy - u.activeEnergy) ∧
      u.Power = (calculateEnergyDelta absEnergy prevZone.EnergyTotal zr.maxEnergy : ℚ) / timeDiff ∧
      u.ActivePower = u.Power * usageRatio ∧
      u.IdlePower = u.Power - u.ActivePower ∧
      u.ActivePower + u.IdlePower = u.Power ∧
      0 ≤ u.Power := by
  refine ⟨nodeZoneUsage prevZones usageRatio timeDiff zr absEnergy, ?_, ?_⟩
  · rw [calculateNodePower_eq_readMap]
    exact readMap_lookup_first (·.zone) (·.energy)
      (nodeZoneUsage prevZones usageRatio timeDiff) pre post zr absEnergy hread hfirst
  · rw [nodeZoneUsage_of_prev prevZones usageRatio timeDiff zr absEnergy prevZone hprev]
    have hle := toEnergy_mul_ratio_le
      (calculateEnergyDelta absEnergy prevZone.EnergyTotal zr.maxEnergy) usageRatio h0 h1
    refine ⟨rfl, rfl, hle, by dsimp only; omega, rfl, rfl, rfl, rfl, rfl, by dsimp only; ring, ?_⟩
    have hd : (0 : ℚ) ≤ (calculateEnergyDelta absEnergy prevZone.EnergyTotal zr.maxEnergy : ℚ) :=
      by positivity
    exact div_nonneg hd (le_of_lt hdt)

/-- Witness for C4 at concrete values: prior total 1000, reading 1600
(delta 600), usage ratio 2/5, interval 3 s: active energy 240, idle 360,
power 200 microwatts split 80 active and 120 idle. -/
theorem calculateNodePower_zone_spec_witness :
    ∃ u : NodeUsage,
      (calculateNodePower [(0, { EnergyTotal := 1000 })] (2/5) 3
          [⟨0, some 1600, 2 ^ 40⟩]).lookup 0 = some u ∧
      u.EnergyTotal = 1600 ∧
      u.activeEnergy = toEnergy ((calculateEnergyDelta 1600 (NodeUsage.EnergyTotal
        { EnergyTotal := 1000 }) (2 ^ 40) : ℚ) * (2/5)) ∧
      u.activeEnergy ≤ calculateEnergyDelta 1600 1000 (2 ^ 40) ∧
      u.activeEnergy + (calculateEnergyDelta 1600 1000 (2 ^ 40) - u.activeEnergy)
        = calculateEnergyDelta 1600 1000 (2 ^ 40) ∧
      u.ActiveEnergyTotal = NodeUsage.ActiveEnergyTotal { EnergyTotal := 1000 } + u.activeEnergy ∧
      u.IdleEnergyTotal = NodeUsage.IdleEnergyTotal { EnergyTotal := 1000 } +
        (calculateEnergyDelta 1600 1000 (2 ^ 40) - u.activeEnergy) ∧
      u.Power = (calculateEnergyDelta 1600 1000 (2 ^ 40) : ℚ) / 3 ∧
      u.ActivePower = u.Power * (2/5) ∧
      u.IdlePower = u.Power - u.ActivePower ∧
      u.ActivePower + u.IdlePower = u.Power ∧
      0 ≤ u.Power := by
  exact calculateNodePower_zone_spec [(0, { EnergyTotal := 1000 })] (2/5) 3
    [] [] ⟨0, some 1600, 2 ^ 40⟩ 1600 { EnergyTotal := 1000 }
    rfl (by intro y hy; cases hy) (by simp [List.lookup])
    (by norm_num) (by norm_num) (by norm_num)

end NodeTheorems

section BugTheorems

/-- C5: GPU steady-state accounting.  The wrap-aware delta (4000) is
booked entirely as active energy, the idle total is carried over
unchanged (77) and idle power is zero; with a DevicePower reading
present, that reading (123) is published.  But in the fallback branch
the claim fails: calculateNodePower passes `time.Duration(timeDiff)`
(node.go:86), which reinterprets the float64 SECONDS value as
NANOSECONDS, so for a 2-second interval the published power is
4000 / (2e-9) = 2e12 microwatts instead of the claimed
`deltaE / deltaT = 2000`. -/
theorem collectNodeGPUData_fallback_power_bug :
    ((collectNodeGPUData [(0, { EnergyTotal := 1000, IdleEnergyTotal := 77 })] [] (goDuration 2)
        [⟨0, some 5000, 2 ^ 40⟩]).lookup 0)
      = some { EnergyTotal := 5000
               activeEnergy := 4000
               ActiveEnergyTotal := 4000
               IdleEnergyTotal := 77
               Power := 2000000000000
               ActivePower := 2000000000000
               IdlePower := 0 } ∧
    (4000 : ℚ) / 2 = 2000 ∧
    (2000000000000 : ℚ) ≠ 2000 ∧
    ((collectNodeGPUData [(0, { EnergyTotal := 1000, IdleEnergyTotal := 77 })] [(0, 123)]
        (goDuration 2) [⟨0, some 5000, 2 ^ 40⟩]).lookup 0).map NodeUsage.Power
      = some 123 := by
  refine ⟨?_, by norm_num, by norm_num, ?_⟩ <;>
    (simp [collectNodeGPUData, collectGPUZoneUsage, calculateEnergyDelta,
      durationSeconds, goDuration, toEnergy, List.lookup, List.filterMap_cons]
     try norm_num)

/-- C6: monotonicity of a live process's cumulative energy fails.  On a
tick whose node zone has zero usage ratio (hence zero interval active
energy and zero active power), the `continue` at the top of the
per-zone loop leaves the zero Usage written by newProcess, so a process
whose previous snapshot held 500 microjoules is republished with
EnergyTotal 0 — a decrease. -/
theorem energyTotal_monotonicity_bug :
    prevZoneEnergy [(1, ⟨1, [(0, ⟨0, 500⟩)], []⟩)] 1 0 = 500 ∧
    ((calculateNodePower [(0, { EnergyTotal := 2000 })] 0 1
        [⟨0, some 3000, 2 ^ 40⟩]).lookup 0).map NodeUsage.activeEnergy = some 0 ∧
    ((calculateProcessPower
        (calculateNodePower [(0, { EnergyTotal := 2000 })] 0 1 [⟨0, some 3000, 2 ^ 40⟩])
        100 [(1, ⟨1, [(0, ⟨0, 500⟩)], []⟩)] [⟨1, 50⟩]).lookup 1).map
      (fun p => p.Zones.lookup 0) = some (some ⟨0, 0⟩) ∧
    ¬ (500 : ℕ) ≤ 0 := by
  refine ⟨?_, ?_, ?_, ?_⟩ <;>
    (simp [prevZoneEnergy, calculateProcessPower, calculateProcess, processZoneUsage,
      calculateNodePower, nodeZoneUsage, calculateEnergyDelta, toEnergy,
      List.lookup, List.filterMap_cons]
     try norm_num)

/-- C7: first-read attribution is dead code.  firstNodeRead never sets
`ActivePower` (node.go:127-133, power cannot be computed on the first
read), yet the guard in firstProcessRead (line 26) and the
steady-state loop skips any zone with `ActivePower = 0`: on the first
tick every process's CPU-zone energy is therefore 0, even though the
node zone carries non-zero attributable active energy (1000 here, of
which the single running process owns the full CPU-time ratio and
should receive 1000 per the spec).  Likewise initNodeGPUData only sets
`EnergyTotal` (node.go:229-231), so the `ActiveEnergyTotal` that
initProcessGPUPower distributes (line 239) is always 0 and every
process's initial GPU energy is 0. -/
theorem firstRead_attribution_bug :
    ((firstNodeRead 1 [⟨0, some 1000, 2 ^ 40⟩]).lookup 0).map NodeUsage.activeEnergy
      = some 1000 ∧
    ((firstNodeRead 1 [⟨0, some 1000, 2 ^ 40⟩]).lookup 0).map NodeUsage.ActivePower
      = some 0 ∧
    firstProcessRead (firstNodeRead 1 [⟨0, some 1000, 2 ^ 40⟩]) 50 [⟨42, 50⟩]
      = [(42, ⟨42, [(0, ⟨0, 0⟩)], []⟩)] ∧
    (⟨0, 0⟩ : Usage) ≠ ⟨0, 1000⟩ ∧
    (initNodeGPUData [⟨0, some 5000, 2 ^ 40⟩]).lookup 0 = some { EnergyTotal := 5000 } ∧
    initProcessGPUPower { EnergyTotal := 5000 } [(42, 50)] = [(42, ⟨0, 0⟩)] := by
  refine ⟨?_, ?_, ?_, ?_, ?_, ?_⟩ <;>
    (simp [firstNodeRead, firstNodeZoneUsage, firstProcessRead, firstProcessZoneUsage,
      initNodeGPUData, initProcessGPUPower, toEnergy, List.lookup, List.filterMap_cons]
     try norm_num)

end BugTheorems

section ProcessCPUTheorems

/-- Lookup in a map built from a keyed list: the first element carrying
the key determines the result. -/
theorem lookup_map_keyed {σ β : Type} (key : σ → ℕ) (g : σ → β)
    (pre post : List σ) (x : σ) (hpre : ∀ y ∈ pre, key y ≠ key x) :
    (((pre ++ x :: post).map fun y => (key y, g y)).lookup (key x)) = some (g x) := by
  induction pre with
  | nil => simp [List.lookup]
  | cons y ys ih =>
      have hy : key y ≠ key x := hpre y (List.mem_cons_self y ys)
      have hk : (key x == key y) = false := beq_false_of_ne (Ne.symm hy)
      simp only [List.cons_append, List.map_cons, List.lookup, hk]
      exact ih fun w hw => hpre w (List.mem_cons_of_mem y hw)

/-- C2 counterexample: the claim predicts that a process with previous
cumulative energy 750 for a zone whose interval active energy is zero
is republished with `EnergyTotal = 750 + R * 0 = 750`; the code's
`continue` guard republishes it with `EnergyTotal = 0` instead. -/
theorem processCPU_attribution_counterexample :
    ((calculateProcessPower [(3, { EnergyTotal := 3000 })] 80
        [(9, ⟨9, [(3, ⟨0, 750⟩)], []⟩)] [⟨9, 20⟩]).lookup 9).map
      (fun p => p.Zones.lookup 3) = some (some ⟨0, 0⟩) ∧
    prevZoneEnergy [(9, ⟨9, [(3, ⟨0, 750⟩)], []⟩)] 9 3 = 750 ∧
    (⟨0, 0⟩ : Usage) ≠ ⟨0, 750⟩ := by
  refine ⟨?_, ?_, ?_⟩ <;>
    (simp [calculateProcessPower, calculateProcess, processZoneUsage, prevZoneEnergy,
      List.lookup]
     try norm_num)

/-- C2 as amended: for a steady-state tick the published record of a
running process is reachable by PID in the new Processes map; for every
zone whose `ActivePower`, interval `activeEnergy`, and the node
CPU-time delta are all non-zero, the process receives power
`R * ActivePower` and cumulative energy `trunc(R * activeEnergy)` plus
its previous total (zero if new), with `R = CPUTimeDelta / total`; when
any of the three is zero the zone's usage is published as zero power
AND zero cumulative energy (the previous total is not carried).  In
particular (scenario S1) two processes with CPUTimeDelta 50 of a total
100, node ratio 1 and zone delta 1000 each receive 500 microjoules of
the node's 1000 active (0 idle). -/
theorem processCPU_attribution_amended :
    (∀ (zones : List (ℕ × NodeUsage)) (d : ℚ) (pp : List (ℕ × Process))
       (rpre rpost : List ProcInfo) (proc : ProcInfo),
      (∀ q ∈ rpre, q.pid ≠ proc.pid) →
      (calculateProcessPower zones d pp (rpre ++ proc :: rpost)).lookup proc.pid
        = some (calculateProcess zones d pp proc)) ∧
    (∀ (d : ℚ) (pp : List (ℕ × Process)) (proc : ProcInfo)
       (pre post : List (ℕ × NodeUsage)) (z : ℕ) (nu : NodeUsage),
      (∀ y ∈ pre, y.1 ≠ z) →
      nu.ActivePower ≠ 0 → nu.activeEnergy ≠ 0 → d ≠ 0 →
      (calculateProcess (pre ++ (z, nu) :: post) d pp proc).Zones.lookup z
        = some ⟨proc.CPUTimeDelta / d * nu.ActivePower,
                toEnergy (proc.CPUTimeDelta / d * (nu.activeEnergy : ℚ))
                  + prevZoneEnergy pp proc.pid z⟩) ∧
    (∀ (d : ℚ) (pp : List (ℕ × Process)) (proc : ProcInfo)
       (pre post : List (ℕ × NodeUsage)) (z : ℕ) (nu : NodeUsage),
      (∀ y ∈ pre, y.1 ≠ z) →
      (nu.ActivePower = 0 ∨ nu.activeEnergy = 0 ∨ d = 0) →
      (calculateProcess (pre ++ (z, nu) :: post) d pp proc).Zones.lookup z
        = some ⟨0, 0⟩) ∧
    (((calculateNodePower [(0, { EnergyTotal := 1000 })] 1 1
        [⟨0, some 2000, 2 ^ 40⟩]).lookup 0).map NodeUsage.activeEnergy = some 1000 ∧
     ((calculateNodePower [(0, { EnergyTotal := 1000 })] 1 1
        [⟨0, some 2000, 2 ^ 40⟩]).lookup 0).map NodeUsage.IdleEnergyTotal = some 0 ∧
     ∀ pid ∈ [1, 2],
       ((calculateProcessPower
           (calculateNodePower [(0, { EnergyTotal := 1000 })] 1 1 [⟨0, some 2000, 2 ^ 40⟩])
           100 [] [⟨1, 50⟩, ⟨2, 50⟩]).lookup pid).map (fun p => p.Zones.lookup 0)
         = some (some ⟨500, 500⟩)) := by
  refine ⟨?_, ?_, ?_, ?_, ?_, ?_⟩
  · intro zones d pp rpre rpost proc hpre
    exact lookup_map_keyed ProcInfo.pid (calculateProcess zones d pp) rpre rpost proc hpre
  · intro d pp proc pre post z nu hpre h1 h2 h3
    have hl := lookup_map_pairs (fun zk nuk => processZoneUsage d pp proc zk nuk)
      pre post z nu hpre
    rw [calculateProcess, hl]
    simp [processZoneUsage, h1, h2, h3]
  · intro d pp proc pre post z nu hpre hz
    have hl := lookup_map_pairs (fun zk nuk => processZoneUsage d pp proc zk nuk)
      pre post z nu hpre
    rw [calculateProcess, hl]
    rcases hz with h | h | h <;> simp [processZoneUsage, h]
  · simp [calculateNodePower, nodeZoneUsage, calculateEnergyDelta, toEnergy, List.lookup]
  · simp [calculateNodePower, nodeZoneUsage, calculateEnergyDelta, toEnergy, List.lookup]
  · intro pid hpid
    simp only [List.mem_cons, List.not_mem_nil, or_false] at hpid
    rcases hpid with h | h <;>
      (subst h
       simp [calculateProcessPower, calculateProcess, processZoneUsage, prevZoneEnergy,
         calculateNodePower, nodeZoneUsage, calculateEnergyDelta, toEnergy, List.lookup]
       try norm_num
       try simp)

/-- Witness for the amended C2 at a concrete steady tick: a single
process holding half the CPU time of a zone with active power 10 and
interval active energy 1000 is published with power 5 and cumulative
energy 500. -/
theorem processCPU_attribution_amended_witness :
    (calculateProcessPower
        [(0, { EnergyTotal := 5000, activeEnergy := 1000, ActivePower := 10 })] 100 []
        [⟨1, 50⟩]).lookup 1
      = some (calculateProcess
          [(0, { EnergyTotal := 5000, activeEnergy := 1000, ActivePower := 10 })] 100 [] ⟨1, 50⟩) ∧
    (calculateProcess
        [(0, { EnergyTotal := 5000, activeEnergy := 1000, ActivePower := 10 })] 100 []
        ⟨1, 50⟩).Zones.lookup 0
      = some ⟨(⟨1, 50⟩ : ProcInfo).CPUTimeDelta / 100
                * NodeUsage.ActivePower { EnergyTotal := 5000, activeEnergy := 1000, ActivePower := 10 },
              toEnergy ((⟨1, 50⟩ : ProcInfo).CPUTimeDelta / 100
                * (NodeUsage.activeEnergy { EnergyTotal := 5000, activeEnergy := 1000, ActivePower := 10 } : ℚ))
                + prevZoneEnergy [] (⟨1, 50⟩ : ProcInfo).pid 0⟩ := by
  refine ⟨?_, ?_⟩
  · exact processCPU_attribution_amended.1
      [(0, { EnergyTotal := 5000, activeEnergy := 1000, ActivePower := 10 })] 100 [] [] []
      ⟨1, 50⟩ (by intro q hq; cases hq)
  · exact processCPU_attribution_amended.2.1 100 [] ⟨1, 50⟩ [] [] 0
      { EnergyTotal := 5000, activeEnergy := 1000, ActivePower := 10 }
      (by intro y hy; cases hy) (by norm_num) (by norm_num) (by norm_num)

end ProcessCPUTheorems

section ProcessGPUTheorems

/-- Distributing a sum: the total of the ratio shares of `P` is the
ratio of the total. -/
theorem sum_map_div_mul (l : List (ℕ × ℚ)) (S P : ℚ) :
    (l.map fun pu => pu.2 / S * P).sum = (l.map (·.2)).sum / S * P := by
  induction l with
  | nil => simp
  | cons x xs ih => simp [ih, add_div, add_mul]

/-- C1: per-GPU ratio attribution.  With positive total SM utilization
`S` over the reporting processes, each reporting process is published
with power `(SMUtil / S) * ActivePower` and cumulative energy
`trunc((SMUtil / S) * activeEnergy)` plus its previous total, and the
process GPU powers sum exactly to the node GPU power (`Power` equals
`ActivePower` on node GPU usages, hypothesis `hPA`; the sum is exact in
the rational model of `float64`).  With `S = 0` every reporting process
is published with zero power and only its previous total. -/
theorem processGPU_attribution_spec (nodeGPUUsage : NodeUsage)
    (prevProcesses : List (ℕ × Process)) (gpuID : ℕ) (utils : List (ℕ × ℚ))
    (hPA : nodeGPUUsage.Power = nodeGPUUsage.ActivePower) :
    (0 < (utils.map (·.2)).sum →
      calculateProcessGPUPower nodeGPUUsage prevProcesses gpuID utils
        = utils.map (fun pu =>
            (pu.1, ⟨pu.2 / (utils.map (·.2)).sum * nodeGPUUsage.ActivePower,
                    toEnergy (pu.2 / (utils.map (·.2)).sum * (nodeGPUUsage.activeEnergy : ℚ))
                      + prevGPUEnergy prevProcesses gpuID pu.1⟩)) ∧
      ((calculateProcessGPUPower nodeGPUUsage prevProcesses gpuID utils).map
          (·.2.Power)).sum = nodeGPUUsage.Power) ∧
    (¬ 0 < (utils.map (·.2)).sum →
      ∀ e ∈ calculateProcessGPUPower nodeGPUUsage prevProcesses gpuID utils,
        e.2.Power = 0 ∧ e.2.EnergyTotal = prevGPUEnergy prevProcesses gpuID e.1) := by
  constructor
  · intro hS
    have hmap : calculateProcessGPUPower nodeGPUUsage prevProcesses gpuID utils
        = utils.map (fun pu =>
            (pu.1, ⟨pu.2 / (utils.map (·.2)).sum * nodeGPUUsage.ActivePower,
                    toEnergy (pu.2 / (utils.map (·.2)).sum * (nodeGPUUsage.activeEnergy : ℚ))
                      + prevGPUEnergy prevProcesses gpuID pu.1⟩)) := by
      simp [calculateProcessGPUPower, processGPUUsage, hS]
    refine ⟨hmap, ?_⟩
    rw [hmap, List.map_map]
    have hcomp :
        ((fun e : ℕ × Usage => e.2.Power) ∘ fun pu : ℕ × ℚ =>
          (pu.1, (⟨pu.2 / (utils.map (·.2)).sum * nodeGPUUsage.ActivePower,
                   toEnergy (pu.2 / (utils.map (·.2)).sum * (nodeGPUUsage.activeEnergy : ℚ))
                     + prevGPUEnergy prevProcesses gpuID pu.1⟩ : Usage)))
          = fun pu : ℕ × ℚ => pu.2 / (utils.map (·.2)).sum * nodeGPUUsage.ActivePower := rfl
    rw [hcomp, sum_map_div_mul, div_self (ne_of_gt hS), one_mul, hPA]
  · intro hS e he
    rcases List.mem_map.mp he with ⟨pu, hmem, hpu⟩
    have : processGPUUsage nodeGPUUsage (prevGPUEnergy prevProcesses gpuID pu.1)
        ((utils.map (·.2)).sum) pu.2 = ⟨0, prevGPUEnergy prevProcesses gpuID pu.1⟩ := by
      simp [processGPUUsage, hS]
    rw [← hpu]
    simp [calculateProcessGPUPower] at *
    simp [this]

/-- Witness for C1 at spec scenario S3: SM utilizations 30, 50, 20 on a
GPU with active power 150000000 microwatts and 3000 microjoules of
interval active energy give process powers 45, 75 and 30 million
microwatts, which sum exactly to the node GPU power, and energies
900 + 1500 + 600 = 3000. -/
theorem processGPU_attribution_spec_witness :
    calculateProcessGPUPower
        { Power := 150000000, ActivePower := 150000000, activeEnergy := 3000 } [] 0
        [(1, 30), (2, 50), (3, 20)]
      = [(1, ⟨45000000, 900⟩), (2, ⟨75000000, 1500⟩), (3, ⟨30000000, 600⟩)] ∧
    ((calculateProcessGPUPower
        { Power := 150000000, ActivePower := 150000000, activeEnergy := 3000 } [] 0
        [(1, 30), (2, 50), (3, 20)]).map (·.2.Power)).sum
      = NodeUsage.Power { Power := 150000000, ActivePower := 150000000, activeEnergy := 3000 } := by
  have h := (processGPU_attribution_spec
    { Power := 150000000, ActivePower := 150000000, activeEnergy := 3000 } [] 0
    [(1, 30), (2, 50), (3, 20)] rfl).1 (by norm_num)
  refine ⟨?_, h.2⟩
  rw [h.1]
  norm_num [toEnergy, prevGPUEnergy, List.lookup]
  simp

end ProcessGPUTheorems

section ErrorHandlingTheorems

/-- Modelled from the spec: the collection loop that consumes
calculateNodePower's return value is not under src/.  Per spec sections
4.1 and 7, only a whole-source failure (the `Zones()` enumeration
itself failing, node.go:20-23) aborts the tick; individual read errors
are joined into the returned error but the snapshot is still computed
and published.  A tick publishes exactly when the enumeration
succeeded. -/
def nodeTickPublishes (zonesEnumeration : Option (List ZoneRead)) : Bool :=
  zonesEnumeration.isSome

/-- C8 counterexample: on the FIRST tick a GPU whose energy read fails
is not omitted from the snapshot — initNodeGPUData (node.go:223-231)
logs the failure, sets the energy to 0 and still writes the entry. -/
theorem initNodeGPUData_failure_counterexample :
    (initNodeGPUData [⟨7, none, 100⟩]).map Prod.fst = [7] ∧
    (initNodeGPUData [⟨7, none, 100⟩]).lookup 7 = some { EnergyTotal := 0 } := by
  constructor <;> simp [initNodeGPUData, List.lookup]

/-- C8 as amended: a single failing energy read never aborts the tick.
On a steady tick a failing CPU zone is logged among the failed zones
and omitted from the new zone map, every other zone being computed
exactly as without the failure, and the failing zone's identity is
absent from the published keys; a failing GPU is likewise omitted on a
steady tick, and a failing CPU zone is omitted on the first tick.  On
the FIRST tick a failing GPU is NOT omitted: its entry is published
with zero energy.  The tick still publishes whenever the zone
enumeration itself succeeded. -/
theorem partial_failure_amended :
    (∀ (prevZones : List (ℕ × NodeUsage)) (r dt : ℚ) (pre post : List ZoneRead)
       (zf : ZoneRead), zf.energy = none →
      calculateNodePower prevZones r dt (pre ++ zf :: post)
        = calculateNodePower prevZones r dt (pre ++ post) ∧
      failedZones (pre ++ zf :: post) = failedZones pre ++ zf.zone :: failedZones post) ∧
    (∀ (prevZones : List (ℕ × NodeUsage)) (r dt : ℚ) (zones : List ZoneRead) (k : ℕ),
      (∀ zr ∈ zones, zr.zone = k → zr.energy = none) →
      k ∉ (calculateNodePower prevZones r dt zones).map Prod.fst) ∧
    (∀ (prevGPUZones : List (ℕ × NodeUsage)) (dp : List (ℕ × ℚ)) (durNs : ℕ)
       (pre post : List GPUZoneRead) (gf : GPUZoneRead), gf.energy = none →
      collectNodeGPUData prevGPUZones dp durNs (pre ++ gf :: post)
        = collectNodeGPUData prevGPUZones dp durNs (pre ++ post)) ∧
    (∀ (r : ℚ) (pre post : List ZoneRead) (zf : ZoneRead), zf.energy = none →
      firstNodeRead r (pre ++ zf :: post) = firstNodeRead r (pre ++ post)) ∧
    (∀ (pre post : List GPUZoneRead) (gf : GPUZoneRead), gf.energy = none →
      initNodeGPUData (pre ++ gf :: post)
        = initNodeGPUData pre ++ (gf.deviceID, { EnergyTotal := 0 }) :: initNodeGPUData post) ∧
    (∀ zones : List ZoneRead, nodeTickPublishes (some zones) = true) := by
  refine ⟨?_, ?_, ?_, ?_, ?_, ?_⟩
  · intro prevZones r dt pre post zf hf
    constructor
    · rw [calculateNodePower_eq_readMap, calculateNodePower_eq_readMap]
      exact readMap_skip (·.zone) (·.energy) (nodeZoneUsage prevZones r dt) pre post zf hf
    · simp [failedZones, List.filter_append, List.filter_cons, hf]
  · intro prevZones r dt zones k h
    rw [calculateNodePower_eq_readMap]
    exact readMap_not_mem_keys (·.zone) (·.energy) (nodeZoneUsage prevZones r dt) zones k h
  · intro prevGPUZones dp durNs pre post gf hf
    rw [collectNodeGPUData_eq_readMap, collectNodeGPUData_eq_readMap]
    exact readMap_skip (·.deviceID) (·.energy)
      (collectGPUZoneUsage prevGPUZones dp durNs) pre post gf hf
  · intro r pre post zf hf
    rw [firstNodeRead_eq_readMap, firstNodeRead_eq_readMap]
    exact readMap_skip (·.zone) (·.energy) (fun _ e => firstNodeZoneUsage r e) pre post zf hf
  · intro pre post gf hf
    simp [initNodeGPUData, hf]
  · intro zones
    rfl

/-- Witness for the amended C8: with zone 2's read failing between the
successful reads of zones 1 and 3, the published map has exactly zones
1 and 3, zone 2 appears in the failure log, and the tick publishes. -/
theorem partial_failure_amended_witness :
    calculateNodePower [] 1 1 [⟨1, some 5, 10⟩, ⟨2, none, 10⟩, ⟨3, some 7, 10⟩]
      = calculateNodePower [] 1 1 [⟨1, some 5, 10⟩, ⟨3, some 7, 10⟩] ∧
    failedZones [⟨1, some 5, 10⟩, ⟨2, none, 10⟩, ⟨3, some 7, 10⟩]
      = failedZones [⟨1, some 5, 10⟩] ++ 2 :: failedZones [⟨3, some 7, 10⟩] ∧
    (2 : ℕ) ∉ (calculateNodePower [] 1 1
      [⟨1, some 5, 10⟩, ⟨2, none, 10⟩, ⟨3, some 7, 10⟩]).map Prod.fst ∧
    initNodeGPUData [⟨4, some 9, 10⟩, ⟨7, none, 10⟩]
      = initNodeGPUData [⟨4, some 9, 10⟩] ++ (7, { EnergyTotal := 0 }) :: initNodeGPUData [] ∧
    nodeTickPublishes (some [⟨1, some 5, 10⟩, ⟨2, none, 10⟩, ⟨3, some 7, 10⟩]) = true := by
  obtain ⟨h1, h2⟩ := partial_failure_amended.1 [] 1 1 [⟨1, some 5, 10⟩] [⟨3, some 7, 10⟩]
    ⟨2, none, 10⟩ rfl
  refine ⟨h1, h2, ?_, ?_, ?_⟩
  · exact partial_failure_amended.2.1 [] 1 1 [⟨1, some 5, 10⟩, ⟨2, none, 10⟩, ⟨3, some 7, 10⟩] 2
      (by decide)
  · exact partial_failure_amended.2.2.2.2.1 [⟨4, some 9, 10⟩] [] ⟨7, none, 10⟩ rfl
  · exact partial_failure_amended.2.2.2.2.2 _

/-- C10: a CPU zone whose read fails at tick T and succeeds at tick T+1.
At T the zone is absent from the published zone map; consequently at
T+1 it has no previous reading, and its published entry carries the
freshly read absolute counter with zero interval energies, zero
cumulative active/idle totals and zero powers — the pre-failure totals
are not resumed. -/
theorem zone_failure_recovery_spec (prevZonesT : List (ℕ × NodeUsage))
    (rT dtT r1 dt1 : ℚ) (readsT pre post : List ZoneRead) (z E maxE : ℕ)
    (hfailT : ∀ zr ∈ readsT, zr.zone = z → zr.energy = none)
    (hpre : ∀ y ∈ pre, y.zone ≠ z) :
    z ∉ (calculateNodePower prevZonesT rT dtT readsT).map Prod.fst ∧
    (calculateNodePower (calculateNodePower prevZonesT rT dtT readsT) r1 dt1
        (pre ++ (⟨z, some E, maxE⟩ : ZoneRead) :: post)).lookup z
      = some { EnergyTotal := E, activeEnergy := 0, ActiveEnergyTotal := 0,
               IdleEnergyTotal := 0, Power := 0, ActivePower := 0, IdlePower := 0 } := by
  constructor
  · rw [calculateNodePower_eq_readMap]
    exact readMap_not_mem_keys (·.zone) (·.energy)
      (nodeZoneUsage prevZonesT rT dtT) readsT z hfailT
  · have hnone : (calculateNodePower prevZonesT rT dtT readsT).lookup z = none := by
      rw [calculateNodePower_eq_readMap]
      exact readMap_lookup_none (·.zone) (·.energy)
        (nodeZoneUsage prevZonesT rT dtT) readsT z hfailT
    have hfst := readMap_lookup_first (·.zone) (·.energy)
      (nodeZoneUsage (calculateNodePower prevZonesT rT dtT readsT) r1 dt1)
      pre post (⟨z, some E, maxE⟩ : ZoneRead) E rfl (by intro y hy; exact hpre y hy)
    rw [calculateNodePower_eq_readMap]
    rw [hfst]
    simp [nodeZoneUsage, hnone]

/-- Witness for C10: zone 5 fails at tick T (its only read errors) and
reads 4242 at tick T+1: the T map lacks zone 5 and the T+1 entry is
4242 with all derived fields zero. -/
theorem zone_failure_recovery_spec_witness :
    (5 : ℕ) ∉ (calculateNodePower [(5, { EnergyTotal := 100 })] 1 1
      [⟨5, none, 50⟩]).map Prod.fst ∧
    (calculateNodePower (calculateNodePower [(5, { EnergyTotal := 100 })] 1 1 [⟨5, none, 50⟩])
        1 1 [⟨5, some 4242, 50⟩]).lookup 5
      = some { EnergyTotal := 4242, activeEnergy := 0, ActiveEnergyTotal := 0,
               IdleEnergyTotal := 0, Power := 0, ActivePower := 0, IdlePower := 0 } := by
  have h := zone_failure_recovery_spec [(5, { EnergyTotal := 100 })] 1 1 1 1
    [⟨5, none, 50⟩] [] [] 5 4242 50 (by decide) (by intro y hy; cases hy)
  exact ⟨h.1, h.2⟩

end ErrorHandlingTheorems

section TerminatedTheorems

/-- An Add that passes the threshold and has room appends the workload. -/
theorem TermTracker_Add_append (t : TermTracker) (p : Process)
    (hthr : t.minEnergyThreshold ≤ p.energyTotal)
    (hcap : t.maxTerminated < 0 ∨ t.items.length < t.maxTerminated.toNat) :
    t.Add p = { t with items := t.items ++ [p] } := by
  unfold TermTracker.Add
  have h1 : ¬ p.energyTotal < t.minEnergyThreshold := not_lt.mpr hthr
  rcases hcap with hneg | hlen
  · have h0 : t.maxTerminated ≠ 0 := ne_of_lt hneg
    simp [h1, h0, hneg]
  · have hpos : 0 < t.maxTerminated := by
      by_contra hn
      push_neg at hn
      have hz : t.maxTerminated.toNat = 0 := Int.toNat_of_nonpos hn
      omega
    have h0 : t.maxTerminated ≠ 0 := ne_of_gt hpos
    have hneg2 : ¬ t.maxTerminated < 0 := not_lt.mpr (le_of_lt hpos)
    simp [h1, h0, hneg2, hlen]

/-- The terminated loop of calculateProcessPower (lines 96-106), run on
a tracker with enough room and no below-threshold clone, appends
exactly the clones of the terminated PIDs found in the previous
snapshot, in order. -/
theorem processTerminated_fold_items (prevProcesses : List (ℕ × Process))
    (term : List ℕ) (t : TermTracker)
    (hthr : ∀ pid p, prevProcesses.lookup pid = some p →
      t.minEnergyThreshold ≤ p.energyTotal)
    (hcap : t.maxTerminated < 0 ∨ t.items.length + term.length ≤ t.maxTerminated.toNat) :
    (term.foldl
        (fun tr pid =>
          match prevProcesses.lookup pid with
          | some prevProcess => tr.Add prevProcess.Clone
          | none => tr) t).items
      = t.items ++ term.filterMap fun pid => (prevProcesses.lookup pid).map Process.Clone := by
  induction term generalizing t with
  | nil => simp
  | cons pid rest ih =>
      cases hl : prevProcesses.lookup pid with
      | none =>
          simp only [List.foldl_cons, hl]
          rw [ih t hthr ?_]
          · simp [List.filterMap_cons, hl]
          · rcases hcap with h | h
            · exact Or.inl h
            · right
              simp only [List.length_cons] at h
              omega
      | some p =>
          have hAdd : t.Add p.Clone = { t with items := t.items ++ [p.Clone] } := by
            apply TermTracker_Add_append
            · exact hthr pid p hl
            · rcases hcap with h | h
              · exact Or.inl h
              · right
                simp only [List.length_cons] at h
                omega
          simp only [List.foldl_cons, hl, hAdd]
          rw [ih { t with items := t.items ++ [p.Clone] } (fun p2 q2 h2 => hthr p2 q2 h2) ?_]
          · simp [List.filterMap_cons, hl]
          · rcases hcap with h | h
            · exact Or.inl h
            · right
              simp only [List.length_cons] at h
              simp only [List.length_append, List.length_singleton]
              omega

/-- Mapping the PID over the appended clones recovers the terminated
PIDs that had a previous record, in order. -/
theorem map_pid_filterMap_clone (prevProcesses : List (ℕ × Process))
    (hkeys : ∀ pid p, prevProcesses.lookup pid = some p → p.pid = pid) (l : List ℕ) :
    ((l.filterMap fun pid => (prevProcesses.lookup pid).map Process.Clone).map (·.pid))
      = l.filter fun pid => (prevProcesses.lookup pid).isSome := by
  induction l with
  | nil => simp
  | cons pid rest ih =>
      cases hl : prevProcesses.lookup pid with
      | none => simp [List.filterMap_cons, List.filter_cons, hl, ih]
      | some p =>
          have hp := hkeys pid p hl
          simp [List.filterMap_cons, List.filter_cons, hl, ih, Process.Clone, hp]

/-- C9: a tick that observes `MarkExported` clears the terminated
tracker before ingesting this tick's terminations, so (under the spec's
own assumptions: a PID terminates at most once, hence this tick's
terminated PIDs are fresh and pairwise distinct, and the retained
clones pass the retention policy) the next snapshot's
TerminatedProcesses vector consists of exactly one clone per terminated
PID that was present in the previous snapshot's Processes map, contains
no entry of the pre-export tracker, and lists each PID at most once. -/
theorem markExported_clears_tracker (tracker : TermTracker) (terminated : List ℕ)
    (prevProcesses : List (ℕ × Process))
    (hthr : ∀ pid p, prevProcesses.lookup pid = some p →
      tracker.minEnergyThreshold ≤ p.energyTotal)
    (hcap : tracker.maxTerminated < 0 ∨ terminated.length ≤ tracker.maxTerminated.toNat)
    (hnodup : terminated.Nodup)
    (hkeys : ∀ pid p, prevProcesses.lookup pid = some p → p.pid = pid)
    (hfresh : ∀ pid ∈ terminated, ∀ r ∈ tracker.items, r.pid ≠ pid) :
    (processTerminated true tracker terminated prevProcesses).items
      = terminated.filterMap (fun pid => (prevProcesses.lookup pid).map Process.Clone) ∧
    ((processTerminated true tracker terminated prevProcesses).items.map (·.pid)).Nodup ∧
    (∀ q ∈ (processTerminated true tracker terminated prevProcesses).items,
      q.pid ∈ terminated ∧ ∀ r ∈ tracker.items, q.pid ≠ r.pid) ∧
    (∀ pid p, pid ∈ terminated → prevProcesses.lookup pid = some p →
      p.Clone ∈ (processTerminated true tracker terminated prevProcesses).items) := by
  have hfold : (processTerminated true tracker terminated prevProcesses).items
      = terminated.filterMap fun pid => (prevProcesses.lookup pid).map Process.Clone := by
    unfold processTerminated
    simp only [if_pos]
    rw [processTerminated_fold_items prevProcesses terminated tracker.Clear
      (fun p2 q2 h2 => hthr p2 q2 h2) ?_]
    · simp [TermTracker.Clear]
    · rcases hcap with h | h
      · exact Or.inl h
      · right
        simpa [TermTracker.Clear] using h
  refine ⟨hfold, ?_, ?_, ?_⟩
  · rw [hfold, map_pid_filterMap_clone prevProcesses hkeys terminated]
    exact hnodup.filter _
  · intro q hq
    rw [hfold] at hq
    rcases List.mem_filterMap.mp hq with ⟨pid, hmem, hval⟩
    cases hl : prevProcesses.lookup pid with
    | none => rw [hl] at hval; exact Option.noConfusion hval
    | some p =>
        rw [hl] at hval
        have hqp : p.Clone = q := Option.some.injEq _ _ ▸ hval
        have hqpid : q.pid = pid := by
          rw [← hqp]
          exact hkeys pid p hl
        refine ⟨hqpid ▸ hmem, ?_⟩
        intro r hr
        rw [hqpid]
        exact fun hc => hfresh pid hmem r hr hc.symm
  · intro pid p hmem hl
    rw [hfold]
    exact List.mem_filterMap.mpr ⟨pid, hmem, by rw [hl]; rfl⟩

/-- Witness for C9: an exported tick with one pre-export tracked
workload (PID 77) and one fresh termination (PID 7, previous cumulative
energy 800 above the threshold 10, capacity 500): the published vector
is exactly the clone of PID 7's previous record and PID 77 is gone. -/
theorem markExported_clears_tracker_witness :
    (processTerminated true ⟨500, 10, [⟨77, [(0, ⟨0, 999⟩)], []⟩]⟩ [7]
        [(7, ⟨7, [(0, ⟨0, 800⟩)], []⟩)]).items
      = [7].filterMap
          (fun pid => (([(7, (⟨7, [(0, ⟨0, 800⟩)], []⟩ : Process))]).lookup pid).map
            Process.Clone) ∧
    (Process.Clone ⟨7, [(0, ⟨0, 800⟩)], []⟩)
      ∈ (processTerminated true ⟨500, 10, [⟨77, [(0, ⟨0, 999⟩)], []⟩]⟩ [7]
          [(7, ⟨7, [(0, ⟨0, 800⟩)], []⟩)]).items := by
  have hthr : ∀ pid p, ([(7, (⟨7, [(0, ⟨0, 800⟩)], []⟩ : Process))]).lookup pid = some p →
      (10 : ℕ) ≤ p.energyTotal := by
    intro pid p hl
    by_cases h : pid = 7
    · subst h
      simp [List.lookup] at hl
      subst hl
      norm_num [Process.energyTotal]
    · simp [List.lookup, beq_false_of_ne (fun hc => h hc)] at hl
  have hkeys : ∀ pid p, ([(7, (⟨7, [(0, ⟨0, 800⟩)], []⟩ : Process))]).lookup pid = some p →
      p.pid = pid := by
    intro pid p hl
    by_cases h : pid = 7
    · subst h
      simp [List.lookup] at hl
      subst hl
      rfl
    · simp [List.lookup, beq_false_of_ne (fun hc => h hc)] at hl
  have hfresh : ∀ pid ∈ [(7 : ℕ)],
      ∀ r ∈ [(⟨77, [(0, ⟨0, 999⟩)], []⟩ : Process)], r.pid ≠ pid := by
    intro pid hpid r hr
    simp only [List.mem_singleton] at hpid hr
    subst hpid
    subst hr
    norm_num
  have h := markExported_clears_tracker ⟨500, 10, [⟨77, [(0, ⟨0, 999⟩)], []⟩]⟩ [7]
    [(7, ⟨7, [(0, ⟨0, 800⟩)], []⟩)] hthr (by right; norm_num) (by simp) hkeys hfresh
  exact ⟨h.1, h.2.2.2 7 ⟨7, [(0, ⟨0, 800⟩)], []⟩ (by simp) (by simp [List.lookup])⟩

end TerminatedTheorems

end Kepler
